import Mathlib

/-!
Shallow embedding of the Simplified Irrigation Calculator's deterministic
hydraulic calculation engine (src/components/InputForm.tsx) and of the
fleet aggregation arithmetic (src/components/MasterReport.tsx).

JavaScript numbers are idealised as exact rationals.  The one irrational
primitive the engine uses, Math.sqrt at InputForm.tsx line 127, is kept
abstract in the rational pipeline as an explicit function parameter `sq`
(every claim about the downstream pipeline holds for an arbitrary square
root stand-in); the real-valued model `precipRateReal`, used for the
pressure-monotonicity claim, models it as Real.sqrt.

String-valued form fields are Lean Strings; numeric text inputs are
modelled as `Option ℚ`, `none` standing for an absent, empty or
unparseable entry (parseFloat yielding NaN), matching the source's
"invalid or missing means absent" handling.
-/

namespace Irrigation

/-- JavaScript's `String.prototype.includes` restricted to what the source
needs: `substrPrefix pat l` decides whether `pat` is a prefix of `l`. -/
def substrPrefix : List Char → List Char → Bool
  | [], _ => true
  | _ :: _, [] => false
  | a :: as, b :: bs => a == b && substrPrefix as bs

/-- Whether `pat` occurs contiguously inside `l` (JS `includes`). -/
def containsSub (l pat : List Char) : Bool :=
  match l with
  | [] => substrPrefix pat []
  | c :: t => substrPrefix pat (c :: t) || containsSub t pat

/-- `strIncludes s pat` models `s.includes(pat)` from JavaScript. -/
def strIncludes (s pat : String) : Bool :=
  containsSub s.toList pat.toList

/-- JavaScript's `Math.round`: round half toward positive infinity,
`Math.round x = ⌊x + 0.5⌋`. -/
def jsRound (q : ℚ) : ℤ := ⌊q + 1/2⌋

/-- Rounding to two decimal places, modelling
`parseFloat(x.toFixed(2))` on the exact-rational idealisation. -/
def roundTo2 (q : ℚ) : ℚ := (⌊q * 100 + 1/2⌋ : ℚ) / 100

/-- One entry of `NOZZLE_DATA` (InputForm.tsx lines 20-33). -/
structure Nozzle where
  rate : ℚ
  label : String
  optimalPsi : ℚ
  efficiency : ℚ
  deriving DecidableEq, Repr

/-- The nozzle reference table, InputForm.tsx lines 20-33.  A key absent
from the record yields JavaScript `undefined`, modelled as `none`. -/
def NOZZLE_DATA (key : String) : Option Nozzle :=
  if key = "Fixed Spray (Generic)" then some ⟨1.5, "Fixed Spray (Generic)", 30, 0.70⟩
  else if key = "Rainbird 1800 / HE-VAN" then some ⟨1.6, "Rainbird 1800 / HE-VAN", 30, 0.75⟩
  else if key = "Hunter Pro-Spray" then some ⟨1.5, "Hunter Pro-Spray", 30, 0.75⟩
  else if key = "Hunter MP Rotator (Standard)" then some ⟨0.4, "Hunter MP Rotator (Standard)", 40, 0.80⟩
  else if key = "Hunter MP Rotator (MP800 SR)" then some ⟨0.8, "Hunter MP Rotator (MP800 SR)", 40, 0.80⟩
  else if key = "Rainbird R-VAN" then some ⟨0.6, "Rainbird R-VAN", 45, 0.75⟩
  else if key = "Rotor (Gear Drive - PGP/5000)" then some ⟨0.5, "Rotor (Gear Drive - PGP/5000)", 45, 0.80⟩
  else if key = "Rotor (Low Angle)" then some ⟨0.75, "Rotor (Low Angle)", 45, 0.80⟩
  else if key = "Drip Line (0.9 GPH - 12in Spacing)" then some ⟨0.8, "Drip Line (0.9 GPH @ 12in)", 30, 0.90⟩
  else if key = "Drip Line (0.6 GPH - 12in Spacing)" then some ⟨0.5, "Drip Line (0.6 GPH @ 12in)", 30, 0.90⟩
  else if key = "Drip Line (0.4 GPH - 12in Spacing)" then some ⟨0.35, "Drip Line (0.4 GPH @ 12in)", 30, 0.90⟩
  else if key = "Bubbler (Flood)" then some ⟨12.0, "Bubbler (High Flow)", 30, 0.85⟩
  else none

/-- Soil infiltration rates, InputForm.tsx lines 35-38. -/
def SOIL_RATES (key : String) : Option ℚ :=
  if key = "Sand" then some 2.0
  else if key = "Loamy Sand" then some 1.5
  else if key = "Sandy Loam" then some 0.8
  else if key = "Loam" then some 0.5
  else if key = "Clay Loam" then some 0.25
  else if key = "Silty Clay" then some 0.15
  else if key = "Clay" then some 0.1
  else none

/-- Soil soak times in minutes, InputForm.tsx lines 40-43. -/
def SOIL_SOAK_TIMES (key : String) : Option ℤ :=
  if key = "Sand" then some 0
  else if key = "Loamy Sand" then some 0
  else if key = "Sandy Loam" then some 15
  else if key = "Loam" then some 30
  else if key = "Clay Loam" then some 45
  else if key = "Silty Clay" then some 60
  else if key = "Clay" then some 60
  else none

/-- Slope runoff factors, InputForm.tsx lines 45-47. -/
def SLOPE_FACTORS (key : String) : Option ℚ :=
  if key = "0-15%" then some 1.0
  else if key = "15-30%" then some 0.7
  else if key = "30-45%" then some 0.5
  else if key = ">45%" then some 0.3
  else none

/-- Plant-type water-use factors, InputForm.tsx lines 49-56. -/
def ZONE_FACTORS (key : String) : Option ℚ :=
  if key = "Cool Season Turf Grass" then some 0.95
  else if key = "Warm Season Turf Grass" then some 0.7
  else if key = "All Plants" then some 0.5
  else if key = "Trees" then some 0.6
  else if key = "Perennials" then some 0.5
  else if key = "Drip" then some 0.5
  else none

/-- Sunlight factors, InputForm.tsx lines 58-60. -/
def SUNLIGHT_FACTORS (key : String) : Option ℚ :=
  if key = "Direct Sun" then some 1.0
  else if key = "Partial Sun" then some 0.9
  else if key = "Shade" then some 0.8
  else none

/-- The calculation-relevant part of `PlantFormData` (src/types.ts).
Numeric text fields are the parsed rational, or `none` when absent,
empty or unparseable. -/
structure FormState where
  nozzleType : String
  soilType : String
  slope : String
  zoneType : String
  sunlight : String
  waterSource : String
  pressure : Option ℚ
  efficiency : Option ℚ
  estWeeklyEt : Option ℚ
  estWeeklyRain : Option ℚ
  mowingHeight : Option ℚ
  waterPrice : Option ℚ
  zoneAreaSqFt : Option ℚ
  deriving DecidableEq, Repr

/-- `LiveCalculation` (src/types.ts).  Minute counts produced by
Math.ceil / Math.floor are integers. -/
structure LiveCalc where
  precipRate : ℚ
  weeklyTotalMinutes : ℤ
  suggestedFrequency : ℤ
  dailyRunTime : ℤ
  maxRunTime : ℤ
  recommendedSoakTime : ℤ
  cyclesPerDay : ℤ
  minutesPerCycle : ℤ
  inchesAppliedPerDay : ℚ
  isEstData : Bool
  efficiency : ℚ
  deriving DecidableEq, Repr

/-- What the effect at InputForm.tsx lines 111-231 leaves in the
`liveCalc` state: a calculation, the explicit empty state
(`setLiveCalc(null)`, line 229), or a JavaScript runtime error (the
unguarded `nozzle.rate` / `nozzle.efficiency` accesses at lines 120-122
when `NOZZLE_DATA[formData.nozzleType]` is `undefined`). -/
inductive CalcResult where
  | ok (lc : LiveCalc) : CalcResult
  | noResult : CalcResult
  | error : CalcResult
  deriving DecidableEq, Repr

/-- The required-field guard of InputForm.tsx line 112: the four string
fields are truthy, i.e. non-empty. -/
def RequiredPresent (f : FormState) : Prop :=
  f.nozzleType ≠ "" ∧ f.soilType ≠ "" ∧ f.slope ≠ "" ∧ f.zoneType ≠ ""

instance (f : FormState) : Decidable (RequiredPresent f) := by
  unfold RequiredPresent; infer_instance

/-- InputForm.tsx line 120: a supplied numeric efficiency wins, else the
nozzle default, else 0.75 (`nozzle.efficiency || 0.75`, falsy meaning 0
on the idealisation). -/
def effectiveEfficiency (effIn : Option ℚ) (nozzleEfficiency : ℚ) : ℚ :=
  match effIn with
  | some e => e / 100
  | none => if nozzleEfficiency = 0 then 0.75 else nozzleEfficiency

/-- InputForm.tsx lines 122-131: pressure-adjusted precipitation rate.
`sq` stands for Math.sqrt.  The source's two tests (`if (formData.pressure)`,
a truthiness test, then `if (actualPsi > 0)`) together fire exactly when a
pressure is supplied and positive. -/
def precipRateCalc (sq : ℚ → ℚ) (nozzle : Nozzle) (pressure : Option ℚ) : ℚ :=
  match pressure with
  | none => nozzle.rate
  | some actualPsi =>
    if 0 < actualPsi then
      roundTo2 (nozzle.rate * min (max (sq (actualPsi / nozzle.optimalPsi)) 0.5) 1.5)
    else nozzle.rate

/-- InputForm.tsx lines 133-141: estimated-or-supplied weekly ET, scaled
by the plant and sunlight factors, less the rain offset, floored at 0.
An absent or zero ET entry is falsy, so `baseEt` falls back to 1.25. -/
def netWeeklyInchesOf (f : FormState) : ℚ :=
  let userEt := f.estWeeklyEt.getD 0
  let baseEt := if userEt = 0 then 1.25 else userEt
  let plantFactor := (ZONE_FACTORS f.zoneType).getD 0.5
  let sunFactor := (SUNLIGHT_FACTORS f.sunlight).getD 1.0
  let rainOffset := f.estWeeklyRain.getD 0
  max 0 (baseEt * plantFactor * sunFactor - rainOffset)

/-- InputForm.tsx lines 147-149: minutes per week, `ceil(net / effectivePr * 60)`
when the effective precipitation rate is positive, else 0. -/
def weeklyTotalMinutesOf (f : FormState) (effectivePr : ℚ) : ℤ :=
  if 0 < effectivePr then ⌈netWeeklyInchesOf f / effectivePr * 60⌉ else 0

/-- InputForm.tsx lines 156-167: base frequency from soil and demand. -/
def baseFrequency (isSandy : Bool) (netWeeklyInches : ℚ) : ℤ :=
  if isSandy then
    if netWeeklyInches > 1.5 then 5
    else if netWeeklyInches > 0.8 then 4 else 3
  else
    if netWeeklyInches > 1.4 then 4
    else if netWeeklyInches > 0.7 then 3 else 2

/-- InputForm.tsx lines 169-183: the mowing-height constraint on turf. -/
def turfAdjustedFrequency (isTurf : Bool) (mowingHeight : ℚ) (base : ℤ) : ℤ :=
  if isTurf then
    if mowingHeight < 2 then
      if mowingHeight ≤ 0.75 then 7
      else if mowingHeight ≤ 1.5 then max base 5
      else max base 4
    else min base 4
  else base

/-- InputForm.tsx lines 151-185: the suggested frequency, i.e. the base
frequency run through the turf mowing-height constraint and the final
clamp to [1, 7].  An absent mowing height defaults to 3.0 (line 153). -/
def suggestedFrequencyOf (f : FormState) : ℤ :=
  max 1 (min 7 (turfAdjustedFrequency (strIncludes f.zoneType "Turf")
    (f.mowingHeight.getD 3.0)
    (baseFrequency (strIncludes f.soilType "Sand") (netWeeklyInchesOf f))))

/-- InputForm.tsx lines 187-189: `ceil(weeklyTotalMinutes / suggestedFrequency)`
guarded by frequency positivity. -/
def dailyRunTimeOf (f : FormState) (effectivePr : ℚ) : ℤ :=
  if 0 < suggestedFrequencyOf f then
    ⌈(weeklyTotalMinutesOf f effectivePr : ℚ) / (suggestedFrequencyOf f : ℚ)⌉
  else 0

/-- InputForm.tsx lines 197-202: the runoff-limited ceiling for a single
cycle.  When the precipitation rate exceeds the soil's infiltration rate,
`max(3, floor(60 * (soilInfiltration / precipRate) * slopeFactor))`, else
the nominal 60 minutes. -/
def maxRunTimeOf (precipRate soilInfiltration slopeFactor : ℚ) : ℤ :=
  if soilInfiltration < precipRate then
    max 3 ⌊60 * (soilInfiltration / precipRate) * slopeFactor⌋
  else 60

/-- InputForm.tsx lines 204-207: the automatic cycle count
`ceil(dailyRunTime / maxRunTime)`, forced to 2 on sandy soil when below 2. -/
def autoCyclesOf (isSandy : Bool) (dailyRunTime maxRunTime : ℤ) : ℤ :=
  let cyclesPerDayCalc : ℤ := ⌈(dailyRunTime : ℚ) / (maxRunTime : ℚ)⌉
  if isSandy ∧ cyclesPerDayCalc < 2 then 2 else cyclesPerDayCalc

/-- InputForm.tsx lines 113-227, after the nozzle has been resolved and
the precipitation rate computed: the body of the calculation effect.
The lets mirror the source's consts in order. -/
def calcCore (precipRate : ℚ) (nozzleEfficiency : ℚ) (f : FormState)
    (manualCycles : Option ℤ) : LiveCalc :=
  let efficiency := effectiveEfficiency f.efficiency nozzleEfficiency
  let effectivePr := precipRate * efficiency
  let weeklyTotalMinutes : ℤ := weeklyTotalMinutesOf f effectivePr
  let suggestedFrequency : ℤ := suggestedFrequencyOf f
  let dailyRunTime : ℤ := dailyRunTimeOf f effectivePr
  let inchesAppliedPerDay : ℚ :=
    if 0 < dailyRunTime then roundTo2 ((dailyRunTime : ℚ) / 60 * effectivePr) else 0
  let maxRunTime : ℤ :=
    maxRunTimeOf precipRate ((SOIL_RATES f.soilType).getD 0.5) ((SLOPE_FACTORS f.slope).getD 1.0)
  let autoCycles : ℤ := autoCyclesOf (strIncludes f.soilType "Sand") dailyRunTime maxRunTime
  let finalCyclesPerDay : ℤ := manualCycles.getD autoCycles
  let minutesPerCycle : ℤ :=
    if 0 < finalCyclesPerDay then ⌈(dailyRunTime : ℚ) / (finalCyclesPerDay : ℚ)⌉ else 0
  let recommendedSoakTime : ℤ :=
    if 1 < finalCyclesPerDay then (SOIL_SOAK_TIMES f.soilType).getD 0 else 0
  { precipRate := precipRate
    weeklyTotalMinutes := weeklyTotalMinutes
    suggestedFrequency := suggestedFrequency
    dailyRunTime := dailyRunTime
    maxRunTime := maxRunTime
    recommendedSoakTime := recommendedSoakTime
    cyclesPerDay := finalCyclesPerDay
    minutesPerCycle := minutesPerCycle
    inchesAppliedPerDay := inchesAppliedPerDay
    isEstData := decide (f.estWeeklyEt.getD 0 = 0)
    efficiency := efficiency }

/-- The whole effect of InputForm.tsx lines 111-231 as one function of the
form state and the active manual-cycle override.  `sq` abstracts Math.sqrt. -/
def computeLive (sq : ℚ → ℚ) (f : FormState) (manualCycles : Option ℤ) : CalcResult :=
  if RequiredPresent f then
    match NOZZLE_DATA f.nozzleType with
    | some nozzle =>
        CalcResult.ok (calcCore (precipRateCalc sq nozzle f.pressure) nozzle.efficiency f manualCycles)
    | none => CalcResult.error
  else CalcResult.noResult

/-- The calculation produced for a known nozzle: shorthand used by the
statements below. -/
def liveResult (sq : ℚ → ℚ) (nozzle : Nozzle) (f : FormState) (manualCycles : Option ℤ) : LiveCalc :=
  calcCore (precipRateCalc sq nozzle f.pressure) nozzle.efficiency f manualCycles

/-- The `cyclesPerDay` of a produced calculation, `none` when nothing was
produced. -/
def resultCycles : CalcResult → Option ℤ
  | CalcResult.ok lc => some lc.cyclesPerDay
  | _ => none

/-- One field change as dispatched by `handleChange` (InputForm.tsx
lines 78-96): the event's `name` selects the field, `value` is the new
content (numeric inputs already parsed, as in `FormState`). -/
inductive FieldChange where
  | nozzleType (value : String)
  | soilType (value : String)
  | slope (value : String)
  | zoneType (value : String)
  | sunlight (value : String)
  | waterSource (value : String)
  | pressure (value : Option ℚ)
  | efficiency (value : Option ℚ)
  | estWeeklyEt (value : Option ℚ)
  | estWeeklyRain (value : Option ℚ)
  | mowingHeight (value : Option ℚ)
  | waterPrice (value : Option ℚ)
  | zoneAreaSqFt (value : Option ℚ)

/-- `handleChange` (InputForm.tsx lines 78-96) acting on the pair
(form state, manual-cycle override): a nozzle change also auto-sets the
efficiency field and clears the override; soil and slope changes clear
the override; every other change keeps it. -/
def handleChange (state : FormState × Option ℤ) (change : FieldChange) : FormState × Option ℤ :=
  match change with
  | FieldChange.nozzleType value =>
      ({ state.1 with
          nozzleType := value
          efficiency :=
            match NOZZLE_DATA value with
            | some nozzle => some (nozzle.efficiency * 100)
            | none => state.1.efficiency },
        none)
  | FieldChange.soilType value => ({ state.1 with soilType := value }, none)
  | FieldChange.slope value => ({ state.1 with slope := value }, none)
  | FieldChange.zoneType value => ({ state.1 with zoneType := value }, state.2)
  | FieldChange.sunlight value => ({ state.1 with sunlight := value }, state.2)
  | FieldChange.waterSource value => ({ state.1 with waterSource := value }, state.2)
  | FieldChange.pressure value => ({ state.1 with pressure := value }, state.2)
  | FieldChange.efficiency value => ({ state.1 with efficiency := value }, state.2)
  | FieldChange.estWeeklyEt value => ({ state.1 with estWeeklyEt := value }, state.2)
  | FieldChange.estWeeklyRain value => ({ state.1 with estWeeklyRain := value }, state.2)
  | FieldChange.mowingHeight value => ({ state.1 with mowingHeight := value }, state.2)
  | FieldChange.waterPrice value => ({ state.1 with waterPrice := value }, state.2)
  | FieldChange.zoneAreaSqFt value => ({ state.1 with zoneAreaSqFt := value }, state.2)

/-- `handleCycleChange` (InputForm.tsx lines 104-109): the ± stepper.
With no live calculation it is a no-op; otherwise the new override is
the current count plus the increment, clamped to [1, 10]. -/
def handleCycleChange (liveCalc : Option LiveCalc) (manualCycles : Option ℤ)
    (increment : ℤ) : Option ℤ :=
  match liveCalc with
  | none => manualCycles
  | some lc =>
      let current := manualCycles.getD lc.cyclesPerDay
      some (max 1 (min 10 (current + increment)))

/-- The dependency list of the calculation effect, InputForm.tsx line 231
(`manualCycles` is the tracked override state). -/
def effectDeps : List String :=
  ["nozzleType", "soilType", "slope", "zoneType", "estWeeklyEt", "estWeeklyRain",
   "pressure", "efficiency", "sunlight", "mowingHeight", "manualCycles"]

/-- `SavedZone` (src/types.ts): a committed snapshot. -/
structure SavedZone where
  id : String
  name : String
  stats : LiveCalc
  formData : FormState
  timestamp : ℤ
  deriving DecidableEq, Repr

/-- `calculateZoneGallons` (MasterReport.tsx lines 20-28). -/
def calculateZoneGallons (z : SavedZone) : ℤ :=
  match z.formData.zoneAreaSqFt with
  | none => 0
  | some area =>
      let pr := z.stats.precipRate
      let minutes := z.stats.weeklyTotalMinutes
      let inches := ((minutes : ℚ) / 60) * pr
      jsRound (inches * area * 0.623)

/-- The per-zone cost logic of MasterReport.tsx lines 34-43: Secondary
(unmetered) water costs 0; otherwise gallons are priced per thousand at
the user price (default 3.00), scaled by 4.3 weeks per month. -/
def zoneCost (z : SavedZone) : ℚ :=
  if z.formData.waterSource = "Secondary" then 0
  else
    let pricePer1k := z.formData.waterPrice.getD 3.00
    ((calculateZoneGallons z : ℚ) * 4.3 / 1000) * pricePer1k

/-- The report's running total of weekly gallons (MasterReport.tsx
lines 17, 31-32): every zone contributes, Secondary ones included. -/
def totalGallons (zones : List SavedZone) : ℤ :=
  (zones.map calculateZoneGallons).sum

/-- The report's running total of monthly cost (MasterReport.tsx
lines 18, 45). -/
def totalMonthlyCost (zones : List SavedZone) : ℚ :=
  (zones.map zoneCost).sum

/-- A concrete committed zone on the Secondary (unmetered) water source
with a known 1000 sq ft area, used to instantiate the aggregation facts. -/
def sampleZone : SavedZone :=
  { id := "1"
    name := "F"
    stats := ⟨1.5, 60, 3, 20, 20, 0, 1, 20, 0.5, true, 0.75⟩
    formData := ⟨"Hunter Pro-Spray", "Loam", "0-15%", "Trees", "Direct Sun", "Secondary",
      none, none, none, none, none, some 3, some 1000⟩
    timestamp := 0 }

/-- Rounding to two decimals on the reals, for the real-valued model of
the pressure response. -/
noncomputable def roundTo2Real (x : ℝ) : ℝ := (⌊x * 100 + 1/2⌋ : ℝ) / 100

/-- InputForm.tsx lines 122-131 over the reals, with Math.sqrt modelled
as Real.sqrt: the pressure-adjusted precipitation rate for a nozzle with
base rate `rate` and optimal pressure `optimalPsi`. -/
noncomputable def precipRateReal (rate optimalPsi : ℝ) (pressure : Option ℝ) : ℝ :=
  match pressure with
  | none => rate
  | some actualPsi =>
    if 0 < actualPsi then
      roundTo2Real (rate * min (max (Real.sqrt (actualPsi / optimalPsi)) 0.5) 1.5)
    else rate

/-! ### Basic lemmas about the embedding -/

/-- When the guard passes and the nozzle key is known, the effect produces
exactly the calculation of `calcCore` at the pressure-adjusted rate. -/
theorem computeLive_eq_ok (sq : ℚ → ℚ) (f : FormState) (m : Option ℤ) (nozzle : Nozzle)
    (hreq : RequiredPresent f) (hn : NOZZLE_DATA f.nozzleType = some nozzle) :
    computeLive sq f m = CalcResult.ok (liveResult sq nozzle f m) := by
  unfold computeLive liveResult
  rw [if_pos hreq, hn]

theorem liveResult_suggestedFrequency (sq : ℚ → ℚ) (nozzle : Nozzle) (f : FormState)
    (m : Option ℤ) :
    (liveResult sq nozzle f m).suggestedFrequency = suggestedFrequencyOf f := rfl

theorem liveResult_maxRunTime (sq : ℚ → ℚ) (nozzle : Nozzle) (f : FormState) (m : Option ℤ) :
    (liveResult sq nozzle f m).maxRunTime =
      maxRunTimeOf (precipRateCalc sq nozzle f.pressure)
        ((SOIL_RATES f.soilType).getD 0.5) ((SLOPE_FACTORS f.slope).getD 1.0) := rfl

theorem liveResult_cyclesPerDay (sq : ℚ → ℚ) (nozzle : Nozzle) (f : FormState) (m : Option ℤ) :
    (liveResult sq nozzle f m).cyclesPerDay =
      m.getD (autoCyclesOf (strIncludes f.soilType "Sand")
        (liveResult sq nozzle f m).dailyRunTime (liveResult sq nozzle f m).maxRunTime) := rfl

/-- The final clamp keeps a turf frequency with mowing height at least 2
below the hard cap of 4. -/
theorem freq_clamp_le_four (mh : ℚ) (b : ℤ) (h : 2 ≤ mh) :
    max 1 (min 7 (turfAdjustedFrequency true mh b)) ≤ 4 := by
  unfold turfAdjustedFrequency
  rw [if_pos rfl, if_neg (not_lt.mpr h)]
  omega

/-- The runoff ceiling is always at least 3 minutes. -/
theorem maxRunTimeOf_ge_three (pr si sf : ℚ) : 3 ≤ maxRunTimeOf pr si sf := by
  unfold maxRunTimeOf
  split <;> omega

/-- Positive daily runtime and a positive ceiling make the automatic cycle
count at least 1. -/
theorem autoCyclesOf_ge_one (s : Bool) (d mrt : ℤ) (hd : 0 < d) (hm : 0 < mrt) :
    1 ≤ autoCyclesOf s d mrt := by
  simp only [autoCyclesOf]
  have hq : (0 : ℚ) < (d : ℚ) / (mrt : ℚ) :=
    div_pos (by exact_mod_cast hd) (by exact_mod_cast hm)
  have hc : 0 < ⌈(d : ℚ) / (mrt : ℚ)⌉ := Int.ceil_pos.mpr hq
  split <;> omega

/-- On sandy soil the automatic cycle count is forced to at least 2. -/
theorem autoCyclesOf_sandy (d mrt : ℤ) : 2 ≤ autoCyclesOf true d mrt := by
  simp only [autoCyclesOf]
  by_cases hc : ⌈(d : ℚ) / (mrt : ℚ)⌉ < 2
  · rw [if_pos ⟨trivial, hc⟩]
  · rw [if_neg fun h => hc h.2]
    omega

/-! ### The claims -/

/-- C2: for every turf zone (zoneType containing "Turf") whose mowing
height input is at least 2.0 inches, the produced LiveCalculation's
suggestedFrequency is at most 4, whatever the soil type (sandy or not)
and whatever the net weekly water need: the deep-rooting cap overrides the
base frequency of step 6. -/
theorem turf_high_mowing_caps_frequency (sq : ℚ → ℚ) (f : FormState) (m : Option ℤ)
    (nozzle : Nozzle) (mh : ℚ)
    (hreq : RequiredPresent f) (hn : NOZZLE_DATA f.nozzleType = some nozzle)
    (hturf : strIncludes f.zoneType "Turf" = true)
    (hmh : f.mowingHeight = some mh) (h2 : 2 ≤ mh) :
    computeLive sq f m = CalcResult.ok (liveResult sq nozzle f m) ∧
    (liveResult sq nozzle f m).suggestedFrequency ≤ 4 := by
  refine ⟨computeLive_eq_ok sq f m nozzle hreq hn, ?_⟩
  rw [liveResult_suggestedFrequency]
  unfold suggestedFrequencyOf
  rw [hturf, hmh, Option.getD_some]
  exact freq_clamp_le_four mh _ h2

/-- C2 witness: a cool-season turf zone mowed at 2.5 inches on sandy loam. -/
theorem turf_high_mowing_caps_frequency_witness :
    RequiredPresent ⟨"Hunter MP Rotator (Standard)", "Sandy Loam", "15-30%",
        "Cool Season Turf Grass", "Direct Sun", "Culinary",
        some 40, none, some 2, some 0, some 2.5, none, some 500⟩ ∧
    NOZZLE_DATA "Hunter MP Rotator (Standard)" =
      some ⟨0.4, "Hunter MP Rotator (Standard)", 40, 0.80⟩ ∧
    strIncludes "Cool Season Turf Grass" "Turf" = true ∧
    (2 : ℚ) ≤ 2.5 ∧
    (computeLive (fun q => q)
        ⟨"Hunter MP Rotator (Standard)", "Sandy Loam", "15-30%",
          "Cool Season Turf Grass", "Direct Sun", "Culinary",
          some 40, none, some 2, some 0, some 2.5, none, some 500⟩ none =
      CalcResult.ok (liveResult (fun q => q)
        ⟨0.4, "Hunter MP Rotator (Standard)", 40, 0.80⟩
        ⟨"Hunter MP Rotator (Standard)", "Sandy Loam", "15-30%",
          "Cool Season Turf Grass", "Direct Sun", "Culinary",
          some 40, none, some 2, some 0, some 2.5, none, some 500⟩ none) ∧
      (liveResult (fun q => q)
        ⟨0.4, "Hunter MP Rotator (Standard)", 40, 0.80⟩
        ⟨"Hunter MP Rotator (Standard)", "Sandy Loam", "15-30%",
          "Cool Season Turf Grass", "Direct Sun", "Culinary",
          some 40, none, some 2, some 0, some 2.5, none, some 500⟩ none).suggestedFrequency ≤ 4) :=
  ⟨by decide, rfl, by decide, by norm_num,
    turf_high_mowing_caps_frequency (fun q => q) _ none _ 2.5
      (by decide) rfl (by decide) rfl (by norm_num)⟩

/-- C9: for a turf zone whose mowing height input is absent or empty, the
calculation behaves exactly as if the mowing height were 3.0 inches, so
the deep-rooting cap applies and the produced suggestedFrequency is at
most 4 by default. -/
theorem turf_mowing_default_three (sq : ℚ → ℚ) (f : FormState) (m : Option ℤ)
    (nozzle : Nozzle)
    (hreq : RequiredPresent f) (hn : NOZZLE_DATA f.nozzleType = some nozzle)
    (hturf : strIncludes f.zoneType "Turf" = true)
    (hmh : f.mowingHeight = none) :
    computeLive sq f m = computeLive sq { f with mowingHeight := some 3.0 } m ∧
    computeLive sq f m = CalcResult.ok (liveResult sq nozzle f m) ∧
    (liveResult sq nozzle f m).suggestedFrequency ≤ 4 := by
  refine ⟨?_, computeLive_eq_ok sq f m nozzle hreq hn, ?_⟩
  · obtain ⟨n1, n2, n3, n4⟩ := hreq
    rw [computeLive_eq_ok sq f m nozzle ⟨n1, n2, n3, n4⟩ hn,
      computeLive_eq_ok sq { f with mowingHeight := some 3.0 } m nozzle ⟨n1, n2, n3, n4⟩ hn]
    simp only [liveResult, calcCore, dailyRunTimeOf, suggestedFrequencyOf,
      weeklyTotalMinutesOf, netWeeklyInchesOf, hmh, Option.getD_none, Option.getD_some]
  · rw [liveResult_suggestedFrequency]
    unfold suggestedFrequencyOf
    rw [hturf, hmh, Option.getD_none]
    exact freq_clamp_le_four 3.0 _ (by norm_num)

/-- C9 witness: warm-season turf with no mowing-height entry. -/
theorem turf_mowing_default_three_witness :
    RequiredPresent ⟨"Rotor (Gear Drive - PGP/5000)", "Clay Loam", "30-45%",
        "Warm Season Turf Grass", "Partial Sun", "Culinary",
        none, none, none, none, none, none, none⟩ ∧
    strIncludes "Warm Season Turf Grass" "Turf" = true ∧
    (computeLive (fun q => q)
        ⟨"Rotor (Gear Drive - PGP/5000)", "Clay Loam", "30-45%",
          "Warm Season Turf Grass", "Partial Sun", "Culinary",
          none, none, none, none, none, none, none⟩ none =
      computeLive (fun q => q)
        ⟨"Rotor (Gear Drive - PGP/5000)", "Clay Loam", "30-45%",
          "Warm Season Turf Grass", "Partial Sun", "Culinary",
          none, none, none, none, some 3.0, none, none⟩ none ∧
      computeLive (fun q => q)
        ⟨"Rotor (Gear Drive - PGP/5000)", "Clay Loam", "30-45%",
          "Warm Season Turf Grass", "Partial Sun", "Culinary",
          none, none, none, none, none, none, none⟩ none =
        CalcResult.ok (liveResult (fun q => q)
          ⟨0.5, "Rotor (Gear Drive - PGP/5000)", 45, 0.80⟩
          ⟨"Rotor (Gear Drive - PGP/5000)", "Clay Loam", "30-45%",
            "Warm Season Turf Grass", "Partial Sun", "Culinary",
            none, none, none, none, none, none, none⟩ none) ∧
      (liveResult (fun q => q)
        ⟨0.5, "Rotor (Gear Drive - PGP/5000)", 45, 0.80⟩
        ⟨"Rotor (Gear Drive - PGP/5000)", "Clay Loam", "30-45%",
          "Warm Season Turf Grass", "Partial Sun", "Culinary",
          none, none, none, none, none, none, none⟩ none).suggestedFrequency ≤ 4) :=
  ⟨by decide, by decide,
    turf_mowing_default_three (fun q => q) _ none _ (by decide) rfl (by decide) rfl⟩

/-- C4: a change to nozzleType, soilType or slope clears an active manual
cycle override (second state component becomes `none`, reverting to
automatic), while a change to pressure, efficiency, sunlight, weekly ET,
weekly rain or mowing height leaves the override exactly as it was. -/
theorem override_clear_rules (s : FormState × Option ℤ) (v : String) (q : Option ℚ) :
    (handleChange s (FieldChange.nozzleType v)).2 = none ∧
    (handleChange s (FieldChange.soilType v)).2 = none ∧
    (handleChange s (FieldChange.slope v)).2 = none ∧
    (handleChange s (FieldChange.pressure q)).2 = s.2 ∧
    (handleChange s (FieldChange.efficiency q)).2 = s.2 ∧
    (handleChange s (FieldChange.sunlight v)).2 = s.2 ∧
    (handleChange s (FieldChange.estWeeklyEt q)).2 = s.2 ∧
    (handleChange s (FieldChange.estWeeklyRain q)).2 = s.2 ∧
    (handleChange s (FieldChange.mowingHeight q)).2 = s.2 :=
  ⟨rfl, rfl, rfl, rfl, rfl, rfl, rfl, rfl, rfl⟩

/-- C10: a zoneType change only updates the zoneType field and keeps an
active manual cycle override, even though zoneType is in the calculation
effect's dependency list (so the change still triggers a full
recomputation). -/
theorem zoneType_change_keeps_override (s : FormState × Option ℤ) (v : String) :
    (handleChange s (FieldChange.zoneType v)).2 = s.2 ∧
    (handleChange s (FieldChange.zoneType v)).1 = { s.1 with zoneType := v } ∧
    "zoneType" ∈ effectDeps :=
  ⟨rfl, rfl, by decide⟩

/-- C5 (amended): the effect yields the explicit empty state — never a
stale value and never an error — whenever the required-field precondition
fails; and a LiveCalculation is produced exactly when the four required
fields are present AND the nozzleType is one of the known nozzle keys
(for a present but unknown nozzleType the effect errors instead, see the
counterexample). -/
theorem liveCalc_presence (sq : ℚ → ℚ) (f : FormState) (m : Option ℤ) :
    (¬ RequiredPresent f → computeLive sq f m = CalcResult.noResult) ∧
    ((∃ lc, computeLive sq f m = CalcResult.ok lc) ↔
      RequiredPresent f ∧ (NOZZLE_DATA f.nozzleType).isSome = true) := by
  constructor
  · intro h
    unfold computeLive
    rw [if_neg h]
  · unfold computeLive
    by_cases hreq : RequiredPresent f
    · rw [if_pos hreq]
      cases hnz : NOZZLE_DATA f.nozzleType with
      | none => simp [hreq]
      | some n => simp [hreq]
    · rw [if_neg hreq]
      simp [hreq]

/-- C5 counterexample: every required field is present (the nozzleType is
the non-empty string "Nelson 5000 Rotor"), yet no LiveCalculation results:
the unknown key makes the effect dereference `undefined` and throw, which
refutes "produced exactly when all four are present / never an error". -/
theorem liveCalc_presence_counterexample :
    RequiredPresent ⟨"Nelson 5000 Rotor", "Loam", "0-15%", "Trees", "",
        "Culinary", none, none, none, none, none, none, none⟩ ∧
    computeLive (fun q => q)
      ⟨"Nelson 5000 Rotor", "Loam", "0-15%", "Trees", "",
        "Culinary", none, none, none, none, none, none, none⟩ none =
      CalcResult.error :=
  ⟨by decide, by decide⟩

/-- C6 (amended): with the four required fields present and a KNOWN
nozzleType, the calculator is total — it produces a LiveCalculation and
never errors, for arbitrary (even unknown) soilType, slope, sunlight and
zoneType keys, which are all defaulted; and the 0.75 fallback covers a
falsy nozzle efficiency entry when no override is supplied.  An unknown
non-empty nozzleType, however, is not defended (see the counterexample). -/
theorem known_nozzle_never_errors (sq : ℚ → ℚ) (f : FormState) (m : Option ℤ) (nozzle : Nozzle)
    (hreq : RequiredPresent f) (hn : NOZZLE_DATA f.nozzleType = some nozzle) :
    computeLive sq f m = CalcResult.ok (liveResult sq nozzle f m) ∧
    (nozzle.efficiency = 0 → effectiveEfficiency none nozzle.efficiency = 0.75) := by
  refine ⟨computeLive_eq_ok sq f m nozzle hreq hn, fun h => ?_⟩
  unfold effectiveEfficiency
  rw [h, if_pos rfl]

/-- C6 witness: a known nozzle combined with unknown soil, slope, sunlight
and zone keys still produces a calculation. -/
theorem known_nozzle_never_errors_witness :
    RequiredPresent ⟨"Rainbird R-VAN", "Volcanic Ash", "vertical", "Cactus Garden",
        "Moonlight", "Well", some 45, none, none, none, none, none, none⟩ ∧
    NOZZLE_DATA "Rainbird R-VAN" = some ⟨0.6, "Rainbird R-VAN", 45, 0.75⟩ ∧
    (computeLive (fun q => q)
        ⟨"Rainbird R-VAN", "Volcanic Ash", "vertical", "Cactus Garden",
          "Moonlight", "Well", some 45, none, none, none, none, none, none⟩ none =
      CalcResult.ok (liveResult (fun q => q) ⟨0.6, "Rainbird R-VAN", 45, 0.75⟩
        ⟨"Rainbird R-VAN", "Volcanic Ash", "vertical", "Cactus Garden",
          "Moonlight", "Well", some 45, none, none, none, none, none, none⟩ none) ∧
      ((0.75 : ℚ) = 0 → effectiveEfficiency none 0.75 = 0.75)) :=
  ⟨by decide, rfl,
    known_nozzle_never_errors (fun q => q) _ none _ (by decide) rfl⟩

/-- C6 counterexample: required fields present but the nozzleType is the
unknown key "Toro 570Z": instead of a fallback, the calculation errors
(JS: reading `.rate` of `undefined`), so "never raises an error, every
unknown lookup key has a fallback" fails for the nozzle table. -/
theorem unknown_nozzle_errors_counterexample :
    RequiredPresent ⟨"Toro 570Z", "Clay", "15-30%", "Perennials", "Shade",
        "Secondary", some 40, none, none, none, none, none, none⟩ ∧
    computeLive (fun q => q)
      ⟨"Toro 570Z", "Clay", "15-30%", "Perennials", "Shade",
        "Secondary", some 40, none, none, none, none, none, none⟩ none =
      CalcResult.error :=
  ⟨by decide, by decide⟩

/-- C3: for every valid input (required fields present, nozzle known), the
produced maxRunTime obeys the runoff rule: when the pressure-adjusted
precipitation rate exceeds the soil infiltration rate it equals
max(3, floor(60 * (soilInfiltrationRate / precipRate) * slopeFactor)),
and otherwise it equals 60. -/
theorem maxRunTime_runoff_ceiling (sq : ℚ → ℚ) (f : FormState) (m : Option ℤ) (nozzle : Nozzle)
    (hreq : RequiredPresent f) (hn : NOZZLE_DATA f.nozzleType = some nozzle) :
    computeLive sq f m = CalcResult.ok (liveResult sq nozzle f m) ∧
    ((SOIL_RATES f.soilType).getD 0.5 < precipRateCalc sq nozzle f.pressure →
      (liveResult sq nozzle f m).maxRunTime =
        max 3 ⌊60 * ((SOIL_RATES f.soilType).getD 0.5 / precipRateCalc sq nozzle f.pressure) *
          (SLOPE_FACTORS f.slope).getD 1.0⌋) ∧
    (precipRateCalc sq nozzle f.pressure ≤ (SOIL_RATES f.soilType).getD 0.5 →
      (liveResult sq nozzle f m).maxRunTime = 60) := by
  refine ⟨computeLive_eq_ok sq f m nozzle hreq hn, fun h => ?_, fun h => ?_⟩
  · rw [liveResult_maxRunTime]
    unfold maxRunTimeOf
    rw [if_pos h]
  · rw [liveResult_maxRunTime]
    unfold maxRunTimeOf
    rw [if_neg (not_lt.mpr h)]

/-- C3 witness, the spec's own concrete scenario: base rate 1.5 at its
optimal 30 PSI over Loam (0.5) on a 0-15% slope gives a runoff-limited
ceiling of 20 minutes. -/
theorem maxRunTime_runoff_ceiling_witness :
    RequiredPresent ⟨"Hunter Pro-Spray", "Loam", "0-15%", "Trees", "",
        "Culinary", some 30, none, none, none, none, none, none⟩ ∧
    NOZZLE_DATA "Hunter Pro-Spray" = some ⟨1.5, "Hunter Pro-Spray", 30, 0.75⟩ ∧
    precipRateCalc (fun q => q) ⟨1.5, "Hunter Pro-Spray", 30, 0.75⟩ (some 30) = 1.5 ∧
    (liveResult (fun q => q) ⟨1.5, "Hunter Pro-Spray", 30, 0.75⟩
      ⟨"Hunter Pro-Spray", "Loam", "0-15%", "Trees", "",
        "Culinary", some 30, none, none, none, none, none, none⟩ none).maxRunTime = 20 ∧
    (computeLive (fun q => q)
        ⟨"Hunter Pro-Spray", "Loam", "0-15%", "Trees", "",
          "Culinary", some 30, none, none, none, none, none, none⟩ none =
      CalcResult.ok (liveResult (fun q => q) ⟨1.5, "Hunter Pro-Spray", 30, 0.75⟩
        ⟨"Hunter Pro-Spray", "Loam", "0-15%", "Trees", "",
          "Culinary", some 30, none, none, none, none, none, none⟩ none) ∧
      ((SOIL_RATES "Loam").getD 0.5 <
          precipRateCalc (fun q => q) ⟨1.5, "Hunter Pro-Spray", 30, 0.75⟩ (some 30) →
        (liveResult (fun q => q) ⟨1.5, "Hunter Pro-Spray", 30, 0.75⟩
          ⟨"Hunter Pro-Spray", "Loam", "0-15%", "Trees", "",
            "Culinary", some 30, none, none, none, none, none, none⟩ none).maxRunTime =
          max 3 ⌊60 * ((SOIL_RATES "Loam").getD 0.5 /
            precipRateCalc (fun q => q) ⟨1.5, "Hunter Pro-Spray", 30, 0.75⟩ (some 30)) *
            (SLOPE_FACTORS "0-15%").getD 1.0⌋) ∧
      (precipRateCalc (fun q => q) ⟨1.5, "Hunter Pro-Spray", 30, 0.75⟩ (some 30) ≤
          (SOIL_RATES "Loam").getD 0.5 →
        (liveResult (fun q => q) ⟨1.5, "Hunter Pro-Spray", 30, 0.75⟩
          ⟨"Hunter Pro-Spray", "Loam", "0-15%", "Trees", "",
            "Culinary", some 30, none, none, none, none, none, none⟩ none).maxRunTime = 60)) := by
  have hpr : precipRateCalc (fun q => q) ⟨1.5, "Hunter Pro-Spray", 30, 0.75⟩ (some 30) = 1.5 := by
    norm_num [precipRateCalc, roundTo2, max_def, min_def]
  refine ⟨by decide, rfl, hpr, ?_, maxRunTime_runoff_ceiling (fun q => q) _ none _ (by decide) rfl⟩
  rw [liveResult_maxRunTime, hpr]
  norm_num +decide [maxRunTimeOf, SOIL_RATES, SLOPE_FACTORS, max_def]

/-- C1 (amended): the cycle stepper only ever produces override values in
[1, 10], and with such an override active the produced cyclesPerDay is
that override, hence in [1, 10].  The automatic value, by contrast, is
only guaranteed to be at least 1 when the daily runtime is positive, and
at least 2 on sandy soil; it is not confined to [1, 10] in general (see
the counterexample, where it is 0). -/
theorem cyclesPerDay_override_clamped (sq : ℚ → ℚ) (f : FormState) (nozzle : Nozzle) (m : ℤ)
    (hreq : RequiredPresent f) (hn : NOZZLE_DATA f.nozzleType = some nozzle)
    (hm1 : 1 ≤ m) (hm10 : m ≤ 10) :
    computeLive sq f (some m) = CalcResult.ok (liveResult sq nozzle f (some m)) ∧
    (1 ≤ (liveResult sq nozzle f (some m)).cyclesPerDay ∧
      (liveResult sq nozzle f (some m)).cyclesPerDay ≤ 10) ∧
    (∀ (lc : LiveCalc) (cur : Option ℤ) (inc k : ℤ),
      handleCycleChange (some lc) cur inc = some k → 1 ≤ k ∧ k ≤ 10) ∧
    (strIncludes f.soilType "Sand" = true →
      2 ≤ (liveResult sq nozzle f none).cyclesPerDay) ∧
    (0 < (liveResult sq nozzle f none).dailyRunTime →
      1 ≤ (liveResult sq nozzle f none).cyclesPerDay) := by
  refine ⟨computeLive_eq_ok sq f (some m) nozzle hreq hn, ?_, ?_, ?_, ?_⟩
  · rw [liveResult_cyclesPerDay]
    exact ⟨hm1, hm10⟩
  · intro lc cur inc k hk
    unfold handleCycleChange at hk
    simp only [Option.some.injEq] at hk
    omega
  · intro hsand
    rw [liveResult_cyclesPerDay, hsand, Option.getD_none]
    exact autoCyclesOf_sandy _ _
  · intro hd
    rw [liveResult_cyclesPerDay, Option.getD_none]
    refine autoCyclesOf_ge_one _ _ _ hd ?_
    have := maxRunTimeOf_ge_three (precipRateCalc sq nozzle f.pressure)
      ((SOIL_RATES f.soilType).getD 0.5) ((SLOPE_FACTORS f.slope).getD 1.0)
    rw [liveResult_maxRunTime]
    omega

/-- C1 witness: an override of 5 cycles on a sandy drip zone. -/
theorem cyclesPerDay_override_clamped_witness :
    RequiredPresent ⟨"Fixed Spray (Generic)", "Sand", "0-15%", "Drip", "Direct Sun",
        "Culinary", none, none, none, none, none, none, none⟩ ∧
    NOZZLE_DATA "Fixed Spray (Generic)" =
      some ⟨1.5, "Fixed Spray (Generic)", 30, 0.70⟩ ∧
    (1 : ℤ) ≤ 5 ∧ (5 : ℤ) ≤ 10 ∧
    (computeLive (fun q => q)
        ⟨"Fixed Spray (Generic)", "Sand", "0-15%", "Drip", "Direct Sun",
          "Culinary", none, none, none, none, none, none, none⟩ (some 5) =
      CalcResult.ok (liveResult (fun q => q) ⟨1.5, "Fixed Spray (Generic)", 30, 0.70⟩
        ⟨"Fixed Spray (Generic)", "Sand", "0-15%", "Drip", "Direct Sun",
          "Culinary", none, none, none, none, none, none, none⟩ (some 5)) ∧
      (1 ≤ (liveResult (fun q => q) ⟨1.5, "Fixed Spray (Generic)", 30, 0.70⟩
          ⟨"Fixed Spray (Generic)", "Sand", "0-15%", "Drip", "Direct Sun",
            "Culinary", none, none, none, none, none, none, none⟩ (some 5)).cyclesPerDay ∧
        (liveResult (fun q => q) ⟨1.5, "Fixed Spray (Generic)", 30, 0.70⟩
          ⟨"Fixed Spray (Generic)", "Sand", "0-15%", "Drip", "Direct Sun",
            "Culinary", none, none, none, none, none, none, none⟩ (some 5)).cyclesPerDay ≤ 10) ∧
      (∀ (lc : LiveCalc) (cur : Option ℤ) (inc k : ℤ),
        handleCycleChange (some lc) cur inc = some k → 1 ≤ k ∧ k ≤ 10) ∧
      (strIncludes "Sand" "Sand" = true →
        2 ≤ (liveResult (fun q => q) ⟨1.5, "Fixed Spray (Generic)", 30, 0.70⟩
          ⟨"Fixed Spray (Generic)", "Sand", "0-15%", "Drip", "Direct Sun",
            "Culinary", none, none, none, none, none, none, none⟩ none).cyclesPerDay) ∧
      (0 < (liveResult (fun q => q) ⟨1.5, "Fixed Spray (Generic)", 30, 0.70⟩
          ⟨"Fixed Spray (Generic)", "Sand", "0-15%", "Drip", "Direct Sun",
            "Culinary", none, none, none, none, none, none, none⟩ none).dailyRunTime →
        1 ≤ (liveResult (fun q => q) ⟨1.5, "Fixed Spray (Generic)", 30, 0.70⟩
          ⟨"Fixed Spray (Generic)", "Sand", "0-15%", "Drip", "Direct Sun",
            "Culinary", none, none, none, none, none, none, none⟩ none).cyclesPerDay)) :=
  ⟨by decide, rfl, by decide, by decide,
    cyclesPerDay_override_clamped (fun q => q) _ _ 5 (by decide) rfl (by decide) (by decide)⟩

/-- C1 counterexample: all required fields present, no override active;
the weekly rain entry exceeds the adjusted ET, so the daily runtime is 0
and the automatic cycle count — which is never clamped — is 0, outside
[1, 10].  A LiveCalculation IS produced and its cyclesPerDay is 0. -/
theorem cyclesPerDay_auto_zero_counterexample :
    RequiredPresent ⟨"Hunter Pro-Spray", "Loam", "0-15%", "Trees", "",
        "Culinary", none, none, none, some 5, none, none, none⟩ ∧
    resultCycles (computeLive (fun q => q)
      ⟨"Hunter Pro-Spray", "Loam", "0-15%", "Trees", "",
        "Culinary", none, none, none, some 5, none, none, none⟩ none) = some 0 := by
  constructor
  · decide
  · have hsand : strIncludes "Loam" "Sand" = false := by decide
    have hturf : strIncludes "Trees" "Turf" = false := by decide
    norm_num +decide [resultCycles, computeLive, RequiredPresent, NOZZLE_DATA, calcCore,
      SOIL_RATES, SLOPE_FACTORS, SUNLIGHT_FACTORS, ZONE_FACTORS, SOIL_SOAK_TIMES,
      effectiveEfficiency, precipRateCalc, baseFrequency, turfAdjustedFrequency,
      netWeeklyInchesOf, weeklyTotalMinutesOf, suggestedFrequencyOf, dailyRunTimeOf,
      maxRunTimeOf, autoCyclesOf, hsand, hturf]

/-- C7: for every saved zone with a known area, the report computes
gallons = round(((weeklyTotalMinutes/60) * precipRate) * areaSqFt * 0.623);
a zone on the Secondary (unmetered) source costs 0 regardless of its area
or price while its gallons still enter the fleet gallons total; any other
zone is billed (gallons * 4.3 / 1000) * pricePer1000Gallons (price
defaulting to 3.00 when missing). -/
theorem aggregator_gallons_cost (z : SavedZone) (a : ℚ)
    (hA : z.formData.zoneAreaSqFt = some a) :
    calculateZoneGallons z =
      jsRound ((z.stats.weeklyTotalMinutes : ℚ) / 60 * z.stats.precipRate * a * 0.623) ∧
    (z.formData.waterSource = "Secondary" → zoneCost z = 0) ∧
    (z.formData.waterSource ≠ "Secondary" →
      zoneCost z = (calculateZoneGallons z : ℚ) * 4.3 / 1000 * z.formData.waterPrice.getD 3.00) ∧
    ∀ zs : List SavedZone, totalGallons (z :: zs) = calculateZoneGallons z + totalGallons zs := by
  refine ⟨?_, fun h => ?_, fun h => ?_, fun zs => ?_⟩
  · unfold calculateZoneGallons
    rw [hA]
  · unfold zoneCost
    rw [if_pos h]
  · unfold zoneCost
    rw [if_neg h]
  · simp [totalGallons]

/-- C7 witness: a Secondary-source zone with a known area of 1000 sq ft —
its cost is 0 although a price is set, and its gallons still add to the
fleet total. -/
theorem aggregator_gallons_cost_witness :
    sampleZone.formData.zoneAreaSqFt = some 1000 ∧
    (calculateZoneGallons sampleZone =
      jsRound ((sampleZone.stats.weeklyTotalMinutes : ℚ) / 60 *
        sampleZone.stats.precipRate * 1000 * 0.623) ∧
    (sampleZone.formData.waterSource = "Secondary" → zoneCost sampleZone = 0) ∧
    (sampleZone.formData.waterSource ≠ "Secondary" →
      zoneCost sampleZone = (calculateZoneGallons sampleZone : ℚ) * 4.3 / 1000 *
        sampleZone.formData.waterPrice.getD 3.00) ∧
    ∀ zs : List SavedZone, totalGallons (sampleZone :: zs) =
      calculateZoneGallons sampleZone + totalGallons zs) :=
  ⟨rfl, aggregator_gallons_cost sampleZone 1000 rfl⟩

/-- The some-branch of the real-valued pressure response. -/
theorem precipRateReal_some (rate opt p : ℝ) :
    precipRateReal rate opt (some p) =
      if 0 < p then roundTo2Real (rate * min (max (Real.sqrt (p / opt)) 0.5) 1.5)
      else rate := rfl

/-- C8 (amended): the pressure response of the precipitation rate is
weakly monotone: with every other input fixed and 0 < p₁ ≤ p₂, the rate
at p₂ is at least the rate at p₁; and once the pressure reaches
2.25 × optimalPsi the rate saturates at round(baseRate * 1.5, 2), the
value of the 1.5× clamp.  The increase is not strict: below
optimalPsi / 4 the 0.5 clamp (and, elsewhere, the 2-decimal rounding)
collapses distinct pressures to equal rates — see the counterexample. -/
theorem precipRate_pressure_monotone (rate opt p1 p2 : ℝ)
    (hrate : 0 ≤ rate) (hopt : 0 < opt) (hp1 : 0 < p1) (h12 : p1 ≤ p2) :
    precipRateReal rate opt (some p1) ≤ precipRateReal rate opt (some p2) ∧
    (9 / 4 * opt ≤ p2 → precipRateReal rate opt (some p2) = roundTo2Real (rate * 1.5)) := by
  have hp2 : 0 < p2 := lt_of_lt_of_le hp1 h12
  constructor
  · rw [precipRateReal_some, precipRateReal_some, if_pos hp1, if_pos hp2]
    unfold roundTo2Real
    have hs : Real.sqrt (p1 / opt) ≤ Real.sqrt (p2 / opt) :=
      Real.sqrt_le_sqrt ((div_le_div_iff_of_pos_right hopt).mpr h12)
    have hclamp : min (max (Real.sqrt (p1 / opt)) 0.5) 1.5 ≤
        min (max (Real.sqrt (p2 / opt)) 0.5) 1.5 :=
      min_le_min (max_le_max hs le_rfl) le_rfl
    have hmul : rate * min (max (Real.sqrt (p1 / opt)) 0.5) 1.5 ≤
        rate * min (max (Real.sqrt (p2 / opt)) 0.5) 1.5 :=
      mul_le_mul_of_nonneg_left hclamp hrate
    have hfloor : ⌊rate * min (max (Real.sqrt (p1 / opt)) 0.5) 1.5 * 100 + 1 / 2⌋ ≤
        ⌊rate * min (max (Real.sqrt (p2 / opt)) 0.5) 1.5 * 100 + 1 / 2⌋ :=
      Int.floor_mono (by linarith)
    exact (div_le_div_iff_of_pos_right (by norm_num : (0 : ℝ) < 100)).mpr (by exact_mod_cast hfloor)
  · intro hsat
    rw [precipRateReal_some, if_pos hp2]
    have h1 : (1.5 : ℝ) ≤ Real.sqrt (p2 / opt) := by
      rw [Real.le_sqrt' (by norm_num)]
      rw [show ((1.5 : ℝ) ^ 2) = 9 / 4 by norm_num]
      exact (le_div_iff₀ hopt).mpr (by linarith)
    rw [max_eq_left (le_trans (by norm_num) h1), min_eq_right h1]

/-- C8 witness: base rate 1.5 at optimal 30 PSI; the rate at 20 PSI is at
most the rate at 70 PSI, and 70 PSI (≥ 2.25 × 30 = 67.5) saturates at
round(1.5 * 1.5, 2). -/
theorem precipRate_pressure_monotone_witness :
    (0 : ℝ) ≤ 1.5 ∧ (0 : ℝ) < 30 ∧ (0 : ℝ) < 20 ∧ (20 : ℝ) ≤ 70 ∧
    (precipRateReal 1.5 30 (some 20) ≤ precipRateReal 1.5 30 (some 70) ∧
      (9 / 4 * 30 ≤ (70 : ℝ) →
        precipRateReal 1.5 30 (some 70) = roundTo2Real (1.5 * 1.5))) :=
  ⟨by norm_num, by norm_num, by norm_num, by norm_num,
    precipRate_pressure_monotone 1.5 30 20 70 (by norm_num) (by norm_num) (by norm_num)
      (by norm_num)⟩

/-- C8 counterexample: with base rate 1.5 and optimal pressure 30, the
pressures 1 and 2 PSI — both positive, both below optimalPsi — give the
SAME precipRate, because √(p/30) is clamped at 0.5 for both; increasing
pressure toward optimalPsi from below therefore does not (strictly)
increase precipRate. -/
theorem precipRate_pressure_plateau_counterexample :
    (0 : ℝ) < 1 ∧ (1 : ℝ) < 2 ∧ (2 : ℝ) < 30 ∧
    precipRateReal 1.5 30 (some 1) = precipRateReal 1.5 30 (some 2) := by
  refine ⟨by norm_num, by norm_num, by norm_num, ?_⟩
  rw [precipRateReal_some, precipRateReal_some,
    if_pos (by norm_num : (0 : ℝ) < 1), if_pos (by norm_num : (0 : ℝ) < 2)]
  have h1 : Real.sqrt (1 / 30) ≤ (0.5 : ℝ) := by
    rw [Real.sqrt_le_left (by norm_num)]
    norm_num
  have h2 : Real.sqrt (2 / 30) ≤ (0.5 : ℝ) := by
    rw [Real.sqrt_le_left (by norm_num)]
    norm_num
  rw [max_eq_right h1, max_eq_right h2]

end Irrigation
